import Mathlib

/-!
Verification of the screenshot service (`main.py`): a FastAPI endpoint
`GET /screenshot` protected by an `X-API-KEY` header, validating its query
parameters with a pydantic model, drawing an isolated browsing context from a
shared Playwright browser, navigating, and returning the captured image.

The embedding below translates the service's pure decision logic directly and
models each call into the external browser engine by an oracle giving that
call's outcome; every request produces a response together with the ordered
trace of effectful steps, so that ordering and cleanup properties can be
stated.
-/

/-- An HTTPException raised by a FastAPI dependency: status code and detail
message (`main.py` uses these at lines 73-76, 78-81, 99-102). -/
structure HTTPExc where
  status : Nat
  detail : String
deriving DecidableEq, Repr

/-- Python truthiness of an `Optional[str]`: `None` and the empty string are
falsy.  `get_api_key` tests `if not API_KEY` with this semantics. -/
def strOptTruthy : Option String → Bool
  | none => false
  | some s => !(s == "")

/-- The dependency `get_api_key` (`main.py` lines 70-82).  `API_KEY` is the
value of the `API_KEY` environment variable read at import time (line 28,
`None` when unset); `api_key_header` is the request's `X-API-KEY` header value
(`None` when the header is missing, since the scheme uses `auto_error=False`).
If the server key is unset or empty a 500 is raised; else if the header does
not equal the key exactly a 401 is raised; else the header value is
returned. -/
def get_api_key (API_KEY : Option String) (api_key_header : Option String) :
    Except HTTPExc String :=
  if !(strOptTruthy API_KEY) then
    .error ⟨500, "API key not configured on the server."⟩
  else if api_key_header ≠ API_KEY then
    .error ⟨401, "Invalid or missing API Key."⟩
  else
    .ok (api_key_header.getD "")

/-- The shared headless-browser handle; `is_connected` mirrors Playwright's
`Browser.is_connected()`. -/
structure BrowserHandle where
  is_connected : Bool
deriving DecidableEq, Repr

/-- The global `playwright_state` mapping (`main.py` line 33): `browser` is
`some h` when the lifespan startup has stored a browser handle under the
`"browser"` key, `none` otherwise. -/
structure PlaywrightState where
  browser : Option BrowserHandle
deriving DecidableEq, Repr

/-- The dependency `get_browser` (`main.py` lines 96-103): if `"browser"` is
not in `playwright_state` or the stored browser is not connected, a 503 is
raised; otherwise the shared handle is returned.  No launch or respawn is
attempted here. -/
def get_browser (st : PlaywrightState) : Except HTTPExc BrowserHandle :=
  match st.browser with
  | none => .error ⟨503, "Browser is not available or has disconnected."⟩
  | some b =>
    if b.is_connected then .ok b
    else .error ⟨503, "Browser is not available or has disconnected."⟩

/-- The closed enum of output image formats (`main.py` line 91). -/
inductive ImageFormat
  | jpeg
  | png
  | webp
deriving DecidableEq, Repr

/-- The string naming a format, as used in `type` and in the media type. -/
def ImageFormat.toStr : ImageFormat → String
  | jpeg => "jpeg"
  | png => "png"
  | webp => "webp"

/-- Parsing of the raw `format` query value into the `Literal` enum. -/
def parseFormat (s : String) : Option ImageFormat :=
  if s = "jpeg" then some .jpeg
  else if s = "png" then some .png
  else if s = "webp" then some .webp
  else none

/-- The raw query parameters of a `GET /screenshot` request, with the defaults
declared by `ScreenshotParams` (`main.py` lines 85-93); `url` is required. -/
structure RawParams where
  url : String
  width : Int := 1920
  height : Int := 1080
  full_page : Bool := false
  format : String := "jpeg"
  quality : Option Int := some 80
  delay : Int := 0
deriving DecidableEq, Repr

/-- A validated `ScreenshotParams` value (`main.py` lines 85-93). -/
structure ScreenshotParams where
  url : String
  width : Int
  height : Int
  full_page : Bool
  format : ImageFormat
  quality : Option Int
  delay : Int
deriving DecidableEq, Repr

/-- The validation performed by pydantic's `HttpUrl` type on the `url` field
(`main.py` line 87): the value must be an absolute URL with an explicit
`http` or `https` scheme followed by a nonempty remainder; a value lacking a
scheme (e.g. `example.com`) is rejected, and the library never prepends a
scheme. -/
def isHttpUrl (s : String) : Bool :=
  ("http://".data.isPrefixOf s.data && s.data.length > 7) ||
  ("https://".data.isPrefixOf s.data && s.data.length > 8)

/-- The field constraints of `ScreenshotParams` (`main.py` lines 85-93):
`url` an `HttpUrl`; `width` with `gt=0, le=3840`; `height` with `gt=0,
le=2160`; `format` one of the `Literal` values; `quality` with `ge=1, le=100`
when present; `delay` with `ge=0, le=10000`.  Returns the offending field
names, in declaration order, as pydantic collects them. -/
def validationErrors (raw : RawParams) : List String :=
  (if isHttpUrl raw.url then [] else ["url"]) ++
  (if 0 < raw.width ∧ raw.width ≤ 3840 then [] else ["width"]) ++
  (if 0 < raw.height ∧ raw.height ≤ 2160 then [] else ["height"]) ++
  (if (parseFormat raw.format).isSome then [] else ["format"]) ++
  (match raw.quality with
    | none => []
    | some q => if 1 ≤ q ∧ q ≤ 100 then [] else ["quality"]) ++
  (if 0 ≤ raw.delay ∧ raw.delay ≤ 10000 then [] else ["delay"])

/-- The fully-typed `ScreenshotParams` value built from in-bounds raw
parameters, with the format already parsed. -/
def typedParams (raw : RawParams) (f : ImageFormat) : ScreenshotParams :=
  { url := raw.url, width := raw.width, height := raw.height,
    full_page := raw.full_page, format := f, quality := raw.quality,
    delay := raw.delay }

/-- Pydantic validation of the query parameters against `ScreenshotParams`:
either the fully-typed value, or the list of offending fields. -/
def validateParams (raw : RawParams) : Except (List String) ScreenshotParams :=
  match parseFormat raw.format with
  | some f =>
    if validationErrors raw = [] then .ok (typedParams raw f)
    else .error (validationErrors raw)
  | none => .error (validationErrors raw)

/-- A Python exception raised by a call into the browser engine: a Playwright
`Error` (with `isTimeout = true` for its `TimeoutError` subclass, raised when
navigation exceeds its timeout) or any other exception.  `main.py` line 25
imports `Error`; `TimeoutError` is a subclass of it. -/
inductive PyExc
  | playwrightError (isTimeout : Bool) (msg : String)
  | otherExc (msg : String)
deriving DecidableEq, Repr

/-- Oracle for the outcomes of the engine calls one request makes: whether
`new_context`/`new_page`, `goto`, and `screenshot` raise, and the bytes a
successful `screenshot` returns. -/
structure Engine where
  newContextExc : Option PyExc := none
  gotoExc : Option PyExc := none
  screenshotExc : Option PyExc := none
  screenshotBytes : List Nat := []
deriving DecidableEq, Repr

/-- The options passed to `browser.new_context` (`main.py` lines 134-137). -/
structure ContextOptions where
  viewport_width : Int
  viewport_height : Int
  device_scale_factor : Int
deriving DecidableEq, Repr

/-- The context options `take_screenshot` builds from the validated
parameters: the requested viewport, and a constant device scale factor 2. -/
def contextOptions (p : ScreenshotParams) : ContextOptions :=
  { viewport_width := p.width, viewport_height := p.height,
    device_scale_factor := 2 }

/-- The keyword arguments built for `page.screenshot` (`main.py` lines
144-149): `type` and `full_page` always; the `quality` key (outer `some`)
is present exactly when the format is `jpeg` or `webp`, holding
`params.quality`. -/
structure ScreenshotArgs where
  type : ImageFormat
  full_page : Bool
  quality : Option (Option Int)
deriving DecidableEq, Repr

/-- The `screenshot_args` dictionary for given validated parameters. -/
def screenshotArgs (p : ScreenshotParams) : ScreenshotArgs :=
  { type := p.format, full_page := p.full_page,
    quality := if p.format = .jpeg ∨ p.format = .webp then some p.quality
               else none }

/-- An effectful step of the service, recorded in request order. -/
inductive Event
  | browserLaunched
  | paramsChecked
  | browserChecked
  | gateChecked
  | contextCreated (opts : ContextOptions)
  | navigated (url : String) (wait_until : String) (timeoutMs : Nat)
  | slept (ms : Int)
  | captured (args : ScreenshotArgs)
  | contextClosed
deriving DecidableEq, Repr

/-- Whether an event is the closing of the browsing context. -/
def Event.isClose : Event → Bool
  | .contextClosed => true
  | _ => false

/-- Whether an event is the creation of a browsing context. -/
def Event.isCreate : Event → Bool
  | .contextCreated _ => true
  | _ => false

/-- Whether an event is a navigation attempt. -/
def Event.isNav : Event → Bool
  | .navigated _ _ _ => true
  | _ => false

/-- An HTTP response of the endpoint: a successful image (`Response` with
`media_type`, `main.py` line 153), a JSON error body (`JSONResponse`, lines
157 and 159), a translated `HTTPException` from a dependency, or the 422 a
`RequestValidationError` produces. -/
inductive Resp
  | image (media_type : String) (bytes : List Nat)
  | jsonError (status : Nat) (error : String)
  | httpExcResp (status : Nat) (detail : String)
  | validationFailure (status : Nat) (fields : List String)
deriving DecidableEq, Repr

/-- The status code of a response. -/
def Resp.statusCode : Resp → Nat
  | image _ _ => 200
  | jsonError s _ => s
  | httpExcResp s _ => s
  | validationFailure s _ => s

/-- The two `except` blocks of `take_screenshot` (`main.py` lines 155-159):
a Playwright `Error` — its `TimeoutError` subclass included — becomes a 500
JSON body prefixed `Failed to process the page: `; any other exception
becomes a 500 JSON body prefixed `An unexpected error occurred: `. -/
def excResponse : PyExc → Resp
  | .playwrightError _ msg => .jsonError 500 ("Failed to process the page: " ++ msg)
  | .otherExc msg => .jsonError 500 ("An unexpected error occurred: " ++ msg)

/-- The body of `take_screenshot` after its dependencies succeeded (`main.py`
lines 132-162), with the engine's behaviour given by the oracle `eng`: create
a context with the requested viewport and device scale factor 2, navigate
with the fixed `wait_until="networkidle"` and `timeout=30000`, optionally
sleep `delay` ms, capture with `screenshot_args`, and answer with media type
`image/<format>`; any `Error` or other exception maps through `excResponse`;
the `finally` block closes the context whenever one was created. -/
def take_screenshot (p : ScreenshotParams) (eng : Engine) : Resp × List Event :=
  match eng.newContextExc with
  | some e => (excResponse e, [])
  | none =>
    let ev1 : List Event :=
      [.contextCreated (contextOptions p), .navigated p.url "networkidle" 30000]
    match eng.gotoExc with
    | some e => (excResponse e, ev1 ++ [.contextClosed])
    | none =>
      let ev2 := ev1 ++ (if p.delay > 0 then [Event.slept p.delay] else [])
      let ev3 := ev2 ++ [Event.captured (screenshotArgs p)]
      match eng.screenshotExc with
      | some e => (excResponse e, ev3 ++ [.contextClosed])
      | none =>
        (.image ("image/" ++ p.format.toStr) eng.screenshotBytes,
         ev3 ++ [.contextClosed])

/-- One `GET /screenshot` request: the `X-API-KEY` header value, if supplied,
and the raw query parameters. -/
structure Request where
  api_key_header : Option String
  params : RawParams
deriving DecidableEq, Repr

/-- FastAPI's handling of `GET /screenshot` (`main.py` lines 106-162).  The
three `Depends()` of `take_screenshot` are solved in declaration order
(lines 122-126): first the `ScreenshotParams` query model, whose validation
errors are collected rather than raised; then `get_browser`; then
`get_api_key`.  An `HTTPException` raised by a dependency short-circuits
immediately; otherwise, collected validation errors yield a 422; otherwise
the handler body runs. -/
def handleRequest (API_KEY : Option String) (st : PlaywrightState)
    (req : Request) (eng : Engine) : Resp × List Event :=
  match get_browser st with
  | .error e => (.httpExcResp e.status e.detail, [.paramsChecked, .browserChecked])
  | .ok _ =>
    match get_api_key API_KEY req.api_key_header with
    | .error e =>
      (.httpExcResp e.status e.detail,
       [.paramsChecked, .browserChecked, .gateChecked])
    | .ok _ =>
      match validateParams req.params with
      | .error fields =>
        (.validationFailure 422 fields,
         [.paramsChecked, .browserChecked, .gateChecked])
      | .ok p =>
        ((take_screenshot p eng).1,
         [Event.paramsChecked, .browserChecked, .gateChecked] ++
           (take_screenshot p eng).2)

/-- The lifespan startup (`main.py` lines 35-55): launches the shared browser
once and stores it in `playwright_state`.  It is the only place in the
program a browser is launched. -/
def lifespanStartup : PlaywrightState × List Event :=
  ({ browser := some { is_connected := true } }, [Event.browserLaunched])

/-- Model of the external browser engine's capture geometry (engine
behaviour, not repository code): pages render at `device_scale_factor`
device pixels per CSS pixel, so a screenshot's pixel dimensions are the
scale factor times the captured CSS area — the viewport for a viewport
capture, the full scrollable page height for a full-page capture. -/
def captureDims (opts : ContextOptions) (full_page : Bool) (pageHeight : Int) :
    Int × Int :=
  (opts.device_scale_factor * opts.viewport_width,
   opts.device_scale_factor *
     (if full_page then pageHeight else opts.viewport_height))

/-! ## Helper lemmas -/

/-- If pydantic collected any field error, validation fails, reporting
exactly the collected errors. -/
theorem validateParams_error_of_ne_nil (raw : RawParams)
    (h : validationErrors raw ≠ []) :
    validateParams raw = .error (validationErrors raw) := by
  unfold validateParams
  cases parseFormat raw.format with
  | none => rfl
  | some f => simp [h]

/-- Every navigation event recorded by the handler body carries the
validated URL, the fixed wait condition `networkidle`, and the fixed
30000 ms timeout. -/
theorem nav_fixed_in_take (p : ScreenshotParams) (eng : Engine)
    (u w : String) (t : Nat)
    (h : Event.navigated u w t ∈ (take_screenshot p eng).2) :
    u = p.url ∧ w = "networkidle" ∧ t = 30000 := by
  unfold take_screenshot at h
  cases hnc : eng.newContextExc with
  | some e => simp [hnc] at h
  | none =>
    rw [hnc] at h
    cases hg : eng.gotoExc with
    | some e =>
      rw [hg] at h
      simp at h
      exact h
    | none =>
      rw [hg] at h
      cases hs : eng.screenshotExc with
      | some e =>
        rw [hs] at h
        by_cases hd : p.delay > 0 <;> simp [hd] at h <;> exact h
      | none =>
        rw [hs] at h
        by_cases hd : p.delay > 0 <;> simp [hd] at h <;> exact h

/-- Every event of a handled request is one of the three dependency events
or an event of the handler body on validated parameters. -/
theorem handle_trace_cases (key : Option String) (st : PlaywrightState)
    (req : Request) (eng : Engine) (e : Event)
    (h : e ∈ (handleRequest key st req eng).2) :
    e = Event.paramsChecked ∨ e = Event.browserChecked ∨ e = Event.gateChecked ∨
    ∃ p, validateParams req.params = .ok p ∧ e ∈ (take_screenshot p eng).2 := by
  unfold handleRequest at h
  cases hb : get_browser st with
  | error e1 =>
    rw [hb] at h
    simp at h
    tauto
  | ok b =>
    rw [hb] at h
    cases hg : get_api_key key req.api_key_header with
    | error e2 =>
      rw [hg] at h
      simp at h
      tauto
    | ok s =>
      rw [hg] at h
      cases hv : validateParams req.params with
      | error es =>
        rw [hv] at h
        simp at h
        tauto
      | ok p =>
        rw [hv] at h
        simp at h
        rcases h with h | h | h | h
        · tauto
        · tauto
        · tauto
        · exact Or.inr (Or.inr (Or.inr ⟨p, rfl, h⟩))

/-! ## Claims -/

/-- Claim C1 as stated is false: it promises a 500 for every request when
the secret is unset, but `get_browser` is solved before `get_api_key`, so
with the secret unset and the shared browser disconnected the response is
the browser dependency's 503, not the gate's 500.  Concretely: `API_KEY`
unset, header supplied, browser stored but disconnected. -/
theorem c1_counterexample :
    (handleRequest none ⟨some ⟨false⟩⟩
      ⟨some "x", { url := "https://example.com" }⟩ {}).1 =
      .httpExcResp 503 "Browser is not available or has disconnected." ∧
    (handleRequest none ⟨some ⟨false⟩⟩
      ⟨some "x", { url := "https://example.com" }⟩ {}).1.statusCode ≠ 500 :=
  ⟨rfl, by decide⟩

/-- Claim C1 amended: for every request to `GET /screenshot` whose shared
browser dependency succeeds (with the browser absent or disconnected the
response is instead that dependency's 503, whatever the secret and header),
if the server-side secret is unset or empty the gate raises 500 with a
misconfiguration message and the response is that 500, independent of the
supplied `X-API-KEY` header; else if the header is missing or not exactly
equal to the secret the gate raises 401 and the response is 401; else the
gate authorizes the request. -/
theorem c1_api_key_gate (key hdr : Option String) (st : PlaywrightState)
    (req : Request) (eng : Engine) (b : BrowserHandle)
    (hb : get_browser st = .ok b) (hh : req.api_key_header = hdr) :
    (strOptTruthy key = false →
      get_api_key key hdr = .error ⟨500, "API key not configured on the server."⟩ ∧
      (handleRequest key st req eng).1 =
        .httpExcResp 500 "API key not configured on the server.") ∧
    (strOptTruthy key = true → hdr ≠ key →
      get_api_key key hdr = .error ⟨401, "Invalid or missing API Key."⟩ ∧
      (handleRequest key st req eng).1 =
        .httpExcResp 401 "Invalid or missing API Key.") ∧
    (strOptTruthy key = true → hdr = key →
      get_api_key key hdr = .ok (hdr.getD "")) := by
  refine ⟨fun hkey => ?_, fun hkey hne => ?_, fun hkey heq => ?_⟩
  · have hg : get_api_key key hdr =
        .error ⟨500, "API key not configured on the server."⟩ := by
      simp [get_api_key, hkey]
    exact ⟨hg, by simp [handleRequest, hb, hh, hg]⟩
  · have hg : get_api_key key hdr =
        .error ⟨401, "Invalid or missing API Key."⟩ := by
      simp [get_api_key, hkey, hne]
    exact ⟨hg, by simp [handleRequest, hb, hh, hg]⟩
  · simp [get_api_key, hkey, heq]

/-- Witness for C1 at a concrete input: secret unset, header supplied. -/
theorem c1_api_key_gate_witness :
    get_api_key none (some "x") =
      .error ⟨500, "API key not configured on the server."⟩ ∧
    (handleRequest none ⟨some ⟨true⟩⟩
        ⟨some "x", { url := "https://example.com" }⟩ {}).1 =
      .httpExcResp 500 "API key not configured on the server." :=
  (c1_api_key_gate none (some "x") ⟨some ⟨true⟩⟩
    ⟨some "x", { url := "https://example.com" }⟩ {} ⟨true⟩ rfl rfl).1 rfl

/-- Claim C2 as stated is false: the dependencies of `take_screenshot` are
declared in the order params, `get_browser`, `get_api_key`, so the shared
browser handle is checked before the gate's decision, and a request missing
`X-API-KEY` while the shared browser is disconnected receives 503, not 401.
Concretely: secret configured, header missing, browser stored but
disconnected. -/
theorem c2_counterexample :
    (handleRequest (some "secret") ⟨some ⟨false⟩⟩
      ⟨none, { url := "https://example.com" }⟩ {}).1.statusCode = 503 ∧
    (handleRequest (some "secret") ⟨some ⟨false⟩⟩
      ⟨none, { url := "https://example.com" }⟩ {}).2 =
      [.paramsChecked, .browserChecked] :=
  ⟨rfl, rfl⟩

/-- Claim C2 amended: the gate is evaluated after parameter validation and
after the shared-browser availability check; provided the browser dependency
succeeds, a request missing `X-API-KEY` or supplying a wrong value receives
401, and no browsing context is created (the trace ends at the gate's
decision, with the browser check preceding it). -/
theorem c2_gate_before_context (key : Option String) (st : PlaywrightState)
    (req : Request) (eng : Engine) (b : BrowserHandle)
    (hb : get_browser st = .ok b) (hkey : strOptTruthy key = true)
    (hhdr : req.api_key_header ≠ key) :
    (handleRequest key st req eng).1 =
      .httpExcResp 401 "Invalid or missing API Key." ∧
    (handleRequest key st req eng).2 =
      [.paramsChecked, .browserChecked, .gateChecked] ∧
    ∀ opts, Event.contextCreated opts ∉ (handleRequest key st req eng).2 := by
  have hg : get_api_key key req.api_key_header =
      .error ⟨401, "Invalid or missing API Key."⟩ := by
    simp [get_api_key, hkey, hhdr]
  refine ⟨?_, ?_, ?_⟩
  · simp [handleRequest, hb, hg]
  · simp [handleRequest, hb, hg]
  · intro opts
    simp [handleRequest, hb, hg]

/-- Witness for the amended C2 at a concrete input: secret configured,
header missing, browser connected. -/
theorem c2_gate_before_context_witness :
    (handleRequest (some "secret") ⟨some ⟨true⟩⟩
        ⟨none, { url := "https://example.com" }⟩ {}).1 =
      .httpExcResp 401 "Invalid or missing API Key." ∧
    (handleRequest (some "secret") ⟨some ⟨true⟩⟩
        ⟨none, { url := "https://example.com" }⟩ {}).2 =
      [.paramsChecked, .browserChecked, .gateChecked] :=
  ⟨(c2_gate_before_context (some "secret") ⟨some ⟨true⟩⟩
      ⟨none, { url := "https://example.com" }⟩ {} ⟨true⟩ rfl rfl
      (by simp)).1,
   (c2_gate_before_context (some "secret") ⟨some ⟨true⟩⟩
      ⟨none, { url := "https://example.com" }⟩ {} ⟨true⟩ rfl rfl
      (by simp)).2.1⟩

/-- Claim C3: the validator rejects any request whose width is outside
(0, 3840], height outside (0, 2160], quality outside [1, 100], delay outside
[0, 10000], or format not one of jpeg/png/webp — and no navigation is ever
attempted for such a request, whatever the server state; requests within all
bounds (with a valid URL) pass validation. -/
theorem c3_validator_bounds (raw : RawParams) :
    ((¬(0 < raw.width ∧ raw.width ≤ 3840) ∨
      ¬(0 < raw.height ∧ raw.height ≤ 2160) ∨
      (∃ q, raw.quality = some q ∧ ¬(1 ≤ q ∧ q ≤ 100)) ∨
      ¬(0 ≤ raw.delay ∧ raw.delay ≤ 10000) ∨
      parseFormat raw.format = none) →
      validateParams raw = .error (validationErrors raw) ∧
      validationErrors raw ≠ [] ∧
      ∀ key st hdr eng e, Event.isNav e = true →
        e ∉ (handleRequest key st ⟨hdr, raw⟩ eng).2) ∧
    (isHttpUrl raw.url = true → (0 < raw.width ∧ raw.width ≤ 3840) →
      (0 < raw.height ∧ raw.height ≤ 2160) →
      (∀ q, raw.quality = some q → 1 ≤ q ∧ q ≤ 100) →
      (0 ≤ raw.delay ∧ raw.delay ≤ 10000) →
      ∀ f, parseFormat raw.format = some f →
      validateParams raw = .ok (typedParams raw f)) := by
  constructor
  · intro hbad
    have hne : validationErrors raw ≠ [] := by
      have hmem : ∃ s, s ∈ validationErrors raw := by
        rcases hbad with h | h | ⟨q, hq, h⟩ | h | h
        · exact ⟨"width", by simp [validationErrors, List.mem_append, h]⟩
        · exact ⟨"height", by simp [validationErrors, List.mem_append, h]⟩
        · exact ⟨"quality", by simp [validationErrors, List.mem_append, hq, h]⟩
        · exact ⟨"delay", by simp [validationErrors, List.mem_append, h]⟩
        · exact ⟨"format", by simp [validationErrors, List.mem_append, h]⟩
      rcases hmem with ⟨s, hs⟩
      exact List.ne_nil_of_mem hs
    refine ⟨validateParams_error_of_ne_nil raw hne, hne, ?_⟩
    intro key st hdr eng e he hmem
    rcases handle_trace_cases key st ⟨hdr, raw⟩ eng e hmem with h | h | h | ⟨p, hp, _⟩
    · rw [h] at he; simp [Event.isNav] at he
    · rw [h] at he; simp [Event.isNav] at he
    · rw [h] at he; simp [Event.isNav] at he
    · rw [validateParams_error_of_ne_nil raw hne] at hp
      cases hp
  · intro hu hw hh2 hq hd f hf
    have hve : validationErrors raw = [] := by
      cases hqv : raw.quality with
      | none => simp [validationErrors, hu, hw, hh2, hd, hf, hqv]
      | some q =>
        have := hq q hqv
        simp [validationErrors, hu, hw, hh2, hd, hf, hqv, this]
    unfold validateParams
    rw [hf]
    simp [hve]

/-- Witness for C3 at concrete inputs: width 5000 is rejected; a request
with all defaults and a valid URL passes validation. -/
theorem c3_validator_bounds_witness :
    validateParams { url := "https://example.com", width := 5000 } =
      .error (validationErrors { url := "https://example.com", width := 5000 }) ∧
    validateParams { url := "https://example.com" } =
      .ok (typedParams { url := "https://example.com" } .jpeg) :=
  ⟨((c3_validator_bounds { url := "https://example.com", width := 5000 }).1
      (Or.inl (by decide))).1,
   (c3_validator_bounds { url := "https://example.com" }).2 (by decide)
     (by decide) (by decide)
     (fun q hq => by
       have h80 : (80 : Int) = q := Option.some.inj hq
       rw [← h80]; decide)
     (by decide) .jpeg rfl⟩

/-- Claim C4 as stated is false: the `HttpUrl` type rejects a URL lacking a
scheme instead of prepending `https://`.  Concretely, `url=example.com`
fails validation with a `url` field error, the endpoint answers 422 even for
an authorized request against a healthy browser, and no navigation occurs. -/
theorem c4_counterexample :
    validateParams { url := "example.com" } = .error ["url"] ∧
    (handleRequest (some "k") ⟨some ⟨true⟩⟩
      ⟨some "k", { url := "example.com" }⟩ {}).1 =
      .validationFailure 422 ["url"] ∧
    (handleRequest (some "k") ⟨some ⟨true⟩⟩
      ⟨some "k", { url := "example.com" }⟩ {}).2 =
      [.paramsChecked, .browserChecked, .gateChecked] :=
  ⟨rfl, rfl, rfl⟩

/-- Claim C4 amended: a request whose url lacks an `http`/`https` scheme is
rejected by the validator with a `url` field error; whenever validation
succeeds, the validated URL is exactly the supplied one — nothing is ever
prepended. -/
theorem c4_no_scheme_rejected (raw : RawParams) :
    (isHttpUrl raw.url = false →
      validateParams raw = .error (validationErrors raw) ∧
      "url" ∈ validationErrors raw) ∧
    ∀ p, validateParams raw = .ok p → p.url = raw.url := by
  constructor
  · intro hu
    have hmem : "url" ∈ validationErrors raw := by
      simp [validationErrors, List.mem_append, hu]
    exact ⟨validateParams_error_of_ne_nil raw (List.ne_nil_of_mem hmem), hmem⟩
  · intro p hp
    unfold validateParams at hp
    cases hf : parseFormat raw.format with
    | none => rw [hf] at hp; simp at hp
    | some f =>
      rw [hf] at hp
      by_cases hv : validationErrors raw = []
      · simp [hv] at hp
        rw [← hp]
        rfl
      · simp [hv] at hp

/-- Witness for the amended C4 at concrete inputs. -/
theorem c4_no_scheme_rejected_witness :
    (validateParams { url := "example.com" } =
      .error (validationErrors { url := "example.com" }) ∧
     "url" ∈ validationErrors { url := "example.com" }) ∧
    (typedParams { url := "https://example.com" } ImageFormat.jpeg).url =
      "https://example.com" :=
  ⟨(c4_no_scheme_rejected { url := "example.com" }).1 (by decide),
   (c4_no_scheme_rejected { url := "https://example.com" }).2
     (typedParams { url := "https://example.com" } .jpeg) rfl⟩

/-- Claim C5 as stated is false: `ScreenshotParams` declares no `wait_until`
query parameter and `page.goto` is called with the fixed
`wait_until="networkidle"`.  Concretely, a fully default successful request
navigates with the fixed condition `networkidle` (and the fixed 30000 ms
timeout), as its trace shows. -/
theorem c5_counterexample :
    (handleRequest (some "k") ⟨some ⟨true⟩⟩
      ⟨some "k", { url := "https://example.com" }⟩ {}).2 =
      [.paramsChecked, .browserChecked, .gateChecked,
       .contextCreated ⟨1920, 1080, 2⟩,
       .navigated "https://example.com" "networkidle" 30000,
       .captured ⟨.jpeg, false, some (some 80)⟩, .contextClosed] :=
  rfl

/-- Claim C5 amended: the endpoint accepts no wait-condition parameter;
every navigation any request performs uses the fixed wait condition
`networkidle` and the fixed 30000 ms timeout. -/
theorem c5_fixed_wait_condition (key : Option String) (st : PlaywrightState)
    (req : Request) (eng : Engine) (u w : String) (t : Nat)
    (h : Event.navigated u w t ∈ (handleRequest key st req eng).2) :
    w = "networkidle" ∧ t = 30000 := by
  rcases handle_trace_cases key st req eng (Event.navigated u w t) h with
    h1 | h1 | h1 | ⟨p, hp, hm⟩
  · simp at h1
  · simp at h1
  · simp at h1
  · exact (nav_fixed_in_take p eng u w t hm).2

/-- Witness for the amended C5 at a concrete input: the navigation of a
default successful request. -/
theorem c5_fixed_wait_condition_witness :
    "networkidle" = "networkidle" ∧ 30000 = 30000 :=
  c5_fixed_wait_condition (some "k") ⟨some ⟨true⟩⟩
    ⟨some "k", { url := "https://example.com" }⟩ {}
    "https://example.com" "networkidle" 30000 (by decide)

/-- Claim C6: when the shared browser is absent from `playwright_state` or
disconnected, `get_browser` fails fast with the 503 `HTTPException`, the
endpoint answers 503 with the unavailability message, and the request's
trace stops at the browser check — no context is created and no browser is
launched or respawned inline. -/
theorem c6_browser_unavailable (st : PlaywrightState) (key hdr : Option String)
    (raw : RawParams) (eng : Engine)
    (h : st.browser = none ∨
      ∃ b, st.browser = some b ∧ b.is_connected = false) :
    get_browser st =
      .error ⟨503, "Browser is not available or has disconnected."⟩ ∧
    (handleRequest key st ⟨hdr, raw⟩ eng).1 =
      .httpExcResp 503 "Browser is not available or has disconnected." ∧
    (handleRequest key st ⟨hdr, raw⟩ eng).2 =
      [.paramsChecked, .browserChecked] ∧
    Event.browserLaunched ∉ (handleRequest key st ⟨hdr, raw⟩ eng).2 := by
  have hg : get_browser st =
      .error ⟨503, "Browser is not available or has disconnected."⟩ := by
    rcases h with h | ⟨b, hb, hc⟩
    · simp [get_browser, h]
    · simp [get_browser, hb, hc]
  refine ⟨hg, ?_, ?_, ?_⟩
  · simp [handleRequest, hg]
  · simp [handleRequest, hg]
  · simp [handleRequest, hg]

/-- Witness for C6 at a concrete input: browser stored but disconnected. -/
theorem c6_browser_unavailable_witness :
    get_browser ⟨some ⟨false⟩⟩ =
      .error ⟨503, "Browser is not available or has disconnected."⟩ ∧
    (handleRequest (some "k") ⟨some ⟨false⟩⟩
        ⟨some "k", { url := "https://example.com" }⟩ {}).1 =
      .httpExcResp 503 "Browser is not available or has disconnected." :=
  ⟨(c6_browser_unavailable ⟨some ⟨false⟩⟩ (some "k") (some "k")
      { url := "https://example.com" } {} (Or.inr ⟨⟨false⟩, rfl, rfl⟩)).1,
   (c6_browser_unavailable ⟨some ⟨false⟩⟩ (some "k") (some "k")
      { url := "https://example.com" } {} (Or.inr ⟨⟨false⟩, rfl, rfl⟩)).2.1⟩

/-- Claim C7: whenever the handler body successfully created a browsing
context, the trace contains exactly one context-creation and exactly one
context-close event, on every exit path — engine-reported failure during
navigation or capture, unexpected exception, or success. -/
theorem c7_context_released (p : ScreenshotParams) (eng : Engine)
    (h : eng.newContextExc = none) :
    (take_screenshot p eng).2.countP (fun e => e.isClose) = 1 ∧
    (take_screenshot p eng).2.countP (fun e => e.isCreate) = 1 := by
  rcases hg : eng.gotoExc with _ | e <;>
    rcases hs : eng.screenshotExc with _ | e2 <;>
    by_cases hd : p.delay > 0 <;>
    simp [take_screenshot, h, hg, hs, hd, List.countP_append, List.countP_cons,
      Event.isClose, Event.isCreate]

/-- Witness for C7 at a concrete input: a request whose capture fails with
an engine error still closes its context exactly once. -/
theorem c7_context_released_witness :
    (take_screenshot (typedParams { url := "https://example.com" } .jpeg)
      { screenshotExc := some (.playwrightError false "boom") }).2.countP
        (fun e => e.isClose) = 1 ∧
    (take_screenshot (typedParams { url := "https://example.com" } .jpeg)
      { screenshotExc := some (.playwrightError false "boom") }).2.countP
        (fun e => e.isCreate) = 1 :=
  c7_context_released (typedParams { url := "https://example.com" } .jpeg)
    { screenshotExc := some (.playwrightError false "boom") } rfl

/-- Claim C8: every successful capture answers with content-type
`image/<format>` for the requested format, and the `quality` key is passed
to the engine exactly when the format is lossy (`jpeg` or `webp`) and
omitted for `png`. -/
theorem c8_content_type_quality (p : ScreenshotParams) (eng : Engine)
    (h1 : eng.newContextExc = none) (h2 : eng.gotoExc = none)
    (h3 : eng.screenshotExc = none) :
    (take_screenshot p eng).1 =
      .image ("image/" ++ p.format.toStr) eng.screenshotBytes ∧
    Event.captured (screenshotArgs p) ∈ (take_screenshot p eng).2 ∧
    ((p.format = .jpeg ∨ p.format = .webp) →
      (screenshotArgs p).quality = some p.quality) ∧
    (p.format = .png → (screenshotArgs p).quality = none) ∧
    (p.format = .png →
      (take_screenshot p eng).1 = .image "image/png" eng.screenshotBytes) ∧
    (p.format = .jpeg →
      (take_screenshot p eng).1 = .image "image/jpeg" eng.screenshotBytes) ∧
    (p.format = .webp →
      (take_screenshot p eng).1 = .image "image/webp" eng.screenshotBytes) := by
  have hresp : (take_screenshot p eng).1 =
      .image ("image/" ++ p.format.toStr) eng.screenshotBytes := by
    simp [take_screenshot, h1, h2, h3]
  have hmem : Event.captured (screenshotArgs p) ∈ (take_screenshot p eng).2 := by
    by_cases hd : p.delay > 0 <;> simp [take_screenshot, h1, h2, h3, hd]
  refine ⟨hresp, hmem, fun hl => ?_, fun hp => ?_, fun hp => ?_, fun hp => ?_,
    fun hp => ?_⟩
  · simp [screenshotArgs, hl]
  · cases p.format <;> simp_all [screenshotArgs]
  · rw [hresp, hp]; rfl
  · rw [hresp, hp]; rfl
  · rw [hresp, hp]; rfl

/-- Witness for C8 at a concrete input: a successful default (jpeg) capture
answers `image/jpeg` with the quality key passed. -/
theorem c8_content_type_quality_witness :
    (take_screenshot (typedParams { url := "https://example.com" } .jpeg)
      { screenshotBytes := [1, 2, 3] }).1 =
      .image ("image/" ++ ImageFormat.jpeg.toStr) [1, 2, 3] ∧
    (screenshotArgs (typedParams { url := "https://example.com" } .jpeg)).quality =
      some (some 80) :=
  ⟨(c8_content_type_quality (typedParams { url := "https://example.com" } .jpeg)
      { screenshotBytes := [1, 2, 3] } rfl rfl rfl).1,
   (c8_content_type_quality (typedParams { url := "https://example.com" } .jpeg)
      { screenshotBytes := [1, 2, 3] } rfl rfl rfl).2.2.1 (Or.inl rfl)⟩

/-- Claim C9 as stated is false: a Playwright navigation timeout
(`TimeoutError`, a subclass of `Error`) is caught by the same
`except Error` branch as any other engine error and produces the same
generic 500 `Failed to process the page` response — there is no distinct
timeout classification.  Concretely, a timed-out navigation and a
non-timeout engine error with the same message produce identical responses
and traces. -/
theorem c9_counterexample :
    take_screenshot (typedParams { url := "https://example.com" } .jpeg)
        { gotoExc := some (.playwrightError true "Timeout 30000ms exceeded.") } =
      take_screenshot (typedParams { url := "https://example.com" } .jpeg)
        { gotoExc := some (.playwrightError false "Timeout 30000ms exceeded.") } ∧
    (take_screenshot (typedParams { url := "https://example.com" } .jpeg)
        { gotoExc := some (.playwrightError true "Timeout 30000ms exceeded.") }).1 =
      .jsonError 500 "Failed to process the page: Timeout 30000ms exceeded." :=
  ⟨rfl, rfl⟩

/-- Claim C9 amended: the navigation call carries the fixed 30000 ms
upper-bound timeout; a request whose navigation times out fails with the
generic engine-error 500 response carrying the engine's timeout message
(the same classification as other engine errors), and the acquired context
is still closed exactly once. -/
theorem c9_timeout_generic_error (p : ScreenshotParams) (eng : Engine)
    (m : String) (h1 : eng.newContextExc = none)
    (h2 : eng.gotoExc = some (.playwrightError true m)) :
    (take_screenshot p eng).1 =
      .jsonError 500 ("Failed to process the page: " ++ m) ∧
    (take_screenshot p eng).2 =
      [.contextCreated (contextOptions p),
       .navigated p.url "networkidle" 30000, .contextClosed] ∧
    (take_screenshot p eng).2.countP (fun e => e.isClose) = 1 := by
  refine ⟨?_, ?_, ?_⟩ <;>
    simp [take_screenshot, h1, h2, excResponse, List.countP_cons, Event.isClose]

/-- Witness for the amended C9 at a concrete input. -/
theorem c9_timeout_generic_error_witness :
    (take_screenshot (typedParams { url := "https://example.com" } .jpeg)
        { gotoExc := some (.playwrightError true "Timeout 30000ms exceeded.") }).1 =
      .jsonError 500 ("Failed to process the page: " ++ "Timeout 30000ms exceeded.") :=
  (c9_timeout_generic_error (typedParams { url := "https://example.com" } .jpeg)
    { gotoExc := some (.playwrightError true "Timeout 30000ms exceeded.") }
    "Timeout 30000ms exceeded." rfl rfl).1

/-- Claim C10 as stated is false for full-page captures: every context is
indeed created with device scale factor 2, but a full-page capture of a page
taller than the viewport has pixel height twice the page's full height, not
twice the requested viewport height.  Concretely: viewport 1920x1080,
`full_page=true`, page height 5000 gives a 3840x10000 image, not
3840x2160. -/
theorem c10_counterexample :
    (contextOptions { url := "https://example.com", width := 1920,
                      height := 1080, full_page := true, format := .png,
                      quality := some 80, delay := 0 }).device_scale_factor = 2 ∧
    captureDims (contextOptions { url := "https://example.com", width := 1920,
                                  height := 1080, full_page := true,
                                  format := .png, quality := some 80,
                                  delay := 0 }) true 5000 = (3840, 10000) ∧
    captureDims (contextOptions { url := "https://example.com", width := 1920,
                                  height := 1080, full_page := true,
                                  format := .png, quality := some 80,
                                  delay := 0 }) true 5000 ≠
      (2 * 1920, 2 * 1080) := by
  refine ⟨rfl, rfl, by decide⟩

/-- Claim C10 amended: every browsing context is created with device scale
factor 2 and the requested viewport, independently of all request
parameters; hence a successful viewport (non-full-page) capture has pixel
dimensions twice the requested width and height, while a full-page capture
has pixel height twice the page's full height (its width still twice the
requested width). -/
theorem c10_device_scale_factor (p : ScreenshotParams) (pageHeight : Int) :
    (contextOptions p).device_scale_factor = 2 ∧
    (contextOptions p).viewport_width = p.width ∧
    (contextOptions p).viewport_height = p.height ∧
    (p.full_page = false →
      captureDims (contextOptions p) p.full_page pageHeight =
        (2 * p.width, 2 * p.height)) ∧
    (p.full_page = true →
      captureDims (contextOptions p) p.full_page pageHeight =
        (2 * p.width, 2 * pageHeight)) := by
  refine ⟨rfl, rfl, rfl, fun h => ?_, fun h => ?_⟩ <;>
    simp [captureDims, contextOptions, h]

/-- Witness for the amended C10 at a concrete input: a default viewport
capture is rendered at 3840x2160 device pixels. -/
theorem c10_device_scale_factor_witness :
    captureDims (contextOptions (typedParams { url := "https://example.com" } .jpeg))
      (typedParams { url := "https://example.com" } .jpeg).full_page 1080 =
      (2 * 1920, 2 * 1080) :=
  (c10_device_scale_factor (typedParams { url := "https://example.com" } .jpeg)
    1080).2.2.2.1 rfl
